import Mathlib

/-
Verification of the settings-manager module (src/settings/settings_manager.py)
against its natural-language specification.

The Python module stores settings as nested dictionaries mapping string keys
to values.  Python dictionaries preserve insertion order, deletion keeps the
order of the remaining entries, and assignment to a fresh key appends at the
end; we therefore embed a dictionary as an association list with those exact
operational semantics.  Keys in a real Python dictionary are unique, but none
of the theorems below need that assumption, so it is not imposed.
-/

namespace SettingsManager

/-- A settings value: the JSON-like data that the module stores.  Mirrors the
scalar types handled by the Python module (null, booleans, integers, strings)
plus lists and nested dictionaries. -/
inductive Value where
  | vNull : Value
  | vBool : Bool → Value
  | vInt : Int → Value
  | vStr : String → Value
  | vList : List Value → Value
  | vDict : List (String × Value) → Value

/-- An in-memory Python dictionary with string keys, embedded as an ordered
association list (Python dictionaries are insertion ordered). -/
abbrev Dict (α : Type) : Type := List (String × α)

/-- Membership test `key in data` on a Python dictionary. -/
def containsKey {α : Type} (k : String) : Dict α → Bool
  | [] => false
  | kv :: rest => kv.1 == k || containsKey k rest

/-- Lookup `data[key]` on a Python dictionary, returning `none` for a missing
key (a `KeyError` in Python). -/
def lookupKey {α : Type} (k : String) : Dict α → Option α
  | [] => none
  | kv :: rest => if kv.1 == k then some kv.2 else lookupKey k rest

/-- Deletion `del data[key]`: removes the entry with the given key, keeping
the order of the remaining entries. -/
def delKey {α : Type} (k : String) (d : Dict α) : Dict α :=
  d.filter (fun kv => !(kv.1 == k))

/-- Assignment `data[key] = value`: replaces the value in place when the key
exists (keeping its position) and appends a new entry otherwise. -/
def setKey {α : Type} (k : String) (v : α) (d : Dict α) : Dict α :=
  if containsKey k d then d.map (fun kv => if kv.1 == k then (kv.1, v) else kv)
  else d ++ [(k, v)]

/-- Line 441 of settings_manager.py:
`keys_to_remove = [key for key in data if key not in default]`. -/
def keysToRemove {α : Type} (default data : Dict α) : List String :=
  (data.map Prod.fst).filter (fun k => !(containsKey k default))

/-- Lines 441 to 443: compute `keys_to_remove` and then `del data[key]` for
each such key. -/
def removePhase {α : Type} (default data : Dict α) : Dict α :=
  (keysToRemove default data).foldl (fun acc k => delKey k acc) data

/-- Lines 445 to 447: `for key, value in default.items(): if key not in data:
data[key] = value`.  The membership test is against the evolving dictionary,
and insertion of a fresh key appends at the end. -/
def addPhase {α : Type} (default data : Dict α) : Dict α :=
  default.foldl (fun acc kv => if containsKey kv.1 acc then acc else acc ++ [kv]) data

/-- SettingsManagerBase._sanitize_settings (lines 424 to 451): remove the keys
of `data` that are absent from `default`, then add the keys of `default` that
are absent from `data` with their default values.  SettingsManager.sanitize_settings
(lines 821 to 842) performs the same two phases on `self.data`.  The function
is flat: it never inspects the values, only the top-level keys. -/
def sanitize {α : Type} (default data : Dict α) : Dict α :=
  addPhase default (removePhase default data)

/-- Line 62: `SUPPORTED_FORMATS: list[str] = ["json", "yaml", "toml", "ini"]`. -/
def SUPPORTED_FORMATS : List String := ["json", "yaml", "toml", "ini"]

/-- Whether a value is a Python dictionary (`isinstance(settings, dict)`). -/
def Value.isDict : Value → Bool
  | .vDict _ => true
  | _ => false

/-- SettingsManagerBase.valid_ini_format (lines 453 to 467): returns false as
soon as some top-level value is not a dictionary, true otherwise. -/
def valid_ini_format (data : Dict Value) : Bool :=
  data.all (fun kv => kv.2.isDict)

/-- Walks a dotted key path (already split on the dots) down a settings value,
returning the value it reaches, or `none` when a component is missing or a
non-dictionary value is hit before the path ends. -/
def lookupPath : Value → List String → Option Value
  | v, [] => some v
  | .vDict d, k :: ks =>
      match lookupKey k d with
      | some v => lookupPath v ks
      | none => none
  | _, _ :: _ => none

lemma sbeq_comm (a b : String) : (a == b) = (b == a) := by
  by_cases h : a = b
  · subst h; rfl
  · have h1 : (a == b) = false := by
      cases hc : a == b
      · rfl
      · exact absurd (eq_of_beq hc) h
    have h2 : (b == a) = false := by
      cases hc : b == a
      · rfl
      · exact absurd (eq_of_beq hc).symm h
    rw [h1, h2]

lemma filter_bool_ext {α : Type} (p q : α → Bool) (l : List α)
    (h : ∀ a ∈ l, p a = q a) : l.filter p = l.filter q := by
  induction l with
  | nil => rfl
  | cons x xs ih =>
      have hx := h x (List.mem_cons_self x xs)
      have ih' := ih (fun a ha => h a (List.mem_cons_of_mem x ha))
      simp only [List.filter_cons, hx, ih']

lemma filter_all_true {α : Type} (p : α → Bool) (l : List α)
    (h : ∀ a ∈ l, p a = true) : l.filter p = l := by
  induction l with
  | nil => rfl
  | cons x xs ih =>
      have hx := h x (List.mem_cons_self x xs)
      have ih' := ih (fun a ha => h a (List.mem_cons_of_mem x ha))
      simp only [List.filter_cons, hx, if_pos, ih']

lemma filter_filter_comm {α : Type} (p q : α → Bool) (l : List α) :
    (l.filter p).filter q = l.filter (fun a => p a && q a) := by
  induction l with
  | nil => rfl
  | cons x xs ih =>
      cases hp : p x <;> cases hq : q x <;>
        simp [List.filter_cons, hp, hq, ih]

/-- Bool membership of a key in a plain list of keys. -/
def memKey (k : String) (ks : List String) : Bool :=
  ks.any (fun k2 => k2 == k)

lemma foldl_delKey {α : Type} (ks : List String) (d : Dict α) :
    ks.foldl (fun acc k => delKey k acc) d
      = d.filter (fun kv => !(memKey kv.1 ks)) := by
  induction ks generalizing d with
  | nil => simp [memKey]
  | cons k ks ih =>
      have : (fun kv : String × α => !(kv.1 == k) && !(memKey kv.1 ks))
          = (fun kv : String × α => !(memKey kv.1 (k :: ks))) := by
        funext kv
        simp [memKey, sbeq_comm kv.1 k, Bool.not_or]
      calc (k :: ks).foldl (fun acc k => delKey k acc) d
          = ks.foldl (fun acc k => delKey k acc) (delKey k d) := by
            simp [List.foldl]
        _ = (delKey k d).filter (fun kv => !(memKey kv.1 ks)) := ih (delKey k d)
        _ = d.filter (fun kv => !(kv.1 == k) && !(memKey kv.1 ks)) := by
            simp only [delKey]
            rw [filter_filter_comm]
        _ = d.filter (fun kv => !(memKey kv.1 (k :: ks))) := by rw [this]

lemma containsKey_of_mem {α : Type} {kv : String × α} {d : Dict α}
    (h : kv ∈ d) : containsKey kv.1 d = true := by
  induction d with
  | nil => cases h
  | cons x xs ih =>
      rcases List.mem_cons.mp h with h | h
      · subst h; simp [containsKey]
      · simp [containsKey, ih h]

lemma any_filter {α : Type} (p q : α → Bool) (l : List α) :
    (l.filter p).any q = l.any (fun a => p a && q a) := by
  induction l with
  | nil => rfl
  | cons x xs ih =>
      cases hp : p x <;> simp [List.filter_cons, hp, List.any_cons, ih]

lemma memKey_keysToRemove {α : Type} (default data : Dict α) (k : String)
    (hk : containsKey k data = true) :
    memKey k (keysToRemove default data) = !(containsKey k default) := by
  unfold memKey keysToRemove
  rw [any_filter]
  cases hd : containsKey k default
  · -- the key is absent from the defaults: it is a member of keys_to_remove
    simp only [Bool.not_false]
    rw [List.any_eq_true]
    induction data with
    | nil => simp [containsKey] at hk
    | cons x xs ih =>
        rw [containsKey] at hk
        cases hx : x.1 == k
        · rw [hx, Bool.false_or] at hk
          rcases ih hk with ⟨a, ha, hpa⟩
          exact ⟨a, List.mem_cons_of_mem _ ha, hpa⟩
        · refine ⟨x.1, List.mem_map_of_mem Prod.fst (List.mem_cons_self x xs), ?_⟩
          have : x.1 = k := eq_of_beq hx
          rw [this, hd]
          simp
  · -- the key is present in the defaults: no entry of keys_to_remove matches
    simp only [Bool.not_true]
    rw [List.any_eq_false]
    intro a _
    cases ha : a == k
    · simp
    · have : a = k := eq_of_beq ha
      rw [this, hd]
      simp

/-- Removal-phase characterization: deleting every key of keys_to_remove
keeps exactly the entries whose key occurs in the default dictionary. -/
lemma removePhase_eq {α : Type} (default data : Dict α) :
    removePhase default data
      = data.filter (fun kv => containsKey kv.1 default) := by
  unfold removePhase
  rw [foldl_delKey]
  refine filter_bool_ext _ _ _ (fun kv hkv => ?_)
  rw [memKey_keysToRemove default data kv.1 (containsKey_of_mem hkv)]
  simp

lemma containsKey_append {α : Type} (k : String) (a b : Dict α) :
    containsKey k (a ++ b) = (containsKey k a || containsKey k b) := by
  induction a with
  | nil => simp [containsKey]
  | cons x xs ih => simp [containsKey, ih, Bool.or_assoc]

lemma lookupKey_eq_none {α : Type} {k : String} {d : Dict α}
    (h : containsKey k d = false) : lookupKey k d = none := by
  induction d with
  | nil => rfl
  | cons x xs ih =>
      rw [containsKey, Bool.or_eq_false_iff] at h
      rw [lookupKey, if_neg (by rw [h.1]; exact Bool.false_ne_true), ih h.2]

lemma lookupKey_append_left {α : Type} {k : String} {a : Dict α} (b : Dict α)
    (h : containsKey k a = true) : lookupKey k (a ++ b) = lookupKey k a := by
  induction a with
  | nil => simp [containsKey] at h
  | cons x xs ih =>
      rw [containsKey] at h
      cases hx : x.1 == k
      · rw [hx, Bool.false_or] at h
        simp only [List.cons_append, lookupKey, hx]
        exact ih h
      · simp [lookupKey, hx]

lemma containsKey_addPhase {α : Type} (default : Dict α) (acc : Dict α)
    (k : String) :
    containsKey k (addPhase default acc)
      = (containsKey k acc || containsKey k default) := by
  induction default generalizing acc with
  | nil => simp [addPhase, containsKey]
  | cons kv rest ih =>
      show containsKey k (addPhase rest
          (if containsKey kv.1 acc then acc else acc ++ [kv])) = _
      cases hc : containsKey kv.1 acc
      · rw [if_neg Bool.false_ne_true]
        rw [ih]
        rw [containsKey_append]
        simp [containsKey, Bool.or_assoc]
      · rw [if_pos rfl, ih]
        cases hk : kv.1 == k
        · simp [containsKey, hk]
        · have : kv.1 = k := eq_of_beq hk
          rw [this] at hc
          simp [containsKey, hk, hc]

lemma mem_addPhase {α : Type} {default : Dict α} {acc : Dict α}
    {kv : String × α} (h : kv ∈ addPhase default acc) :
    kv ∈ acc ∨ kv ∈ default := by
  induction default generalizing acc with
  | nil => exact Or.inl h
  | cons x rest ih =>
      have h' : kv ∈ addPhase rest
          (if containsKey x.1 acc then acc else acc ++ [x]) := h
      rcases ih h' with hmem | hmem
      · by_cases hc : containsKey x.1 acc = true
        · rw [if_pos hc] at hmem
          exact Or.inl hmem
        · rw [if_neg hc] at hmem
          rcases List.mem_append.mp hmem with hmem | hmem
          · exact Or.inl hmem
          · exact Or.inr (List.mem_cons.mpr (Or.inl (List.mem_singleton.mp hmem)))
      · exact Or.inr (List.mem_cons_of_mem x hmem)

lemma addPhase_eq_self {α : Type} {default : Dict α} {acc : Dict α}
    (h : ∀ kv ∈ default, containsKey kv.1 acc = true) :
    addPhase default acc = acc := by
  induction default with
  | nil => rfl
  | cons x rest ih =>
      show addPhase rest (if containsKey x.1 acc then acc else acc ++ [x]) = acc
      rw [if_pos (h x (List.mem_cons_self x rest))]
      exact ih (fun kv hkv => h kv (List.mem_cons_of_mem x hkv))

lemma lookupKey_append_right {α : Type} {k : String} {a : Dict α} (b : Dict α)
    (h : containsKey k a = false) : lookupKey k (a ++ b) = lookupKey k b := by
  induction a with
  | nil => rfl
  | cons x xs ih =>
      rw [containsKey, Bool.or_eq_false_iff] at h
      rw [List.cons_append, lookupKey,
        if_neg (by rw [h.1]; exact Bool.false_ne_true)]
      exact ih h.2

lemma lookupKey_addPhase {α : Type} (default : Dict α) (acc : Dict α)
    (k : String) :
    lookupKey k (addPhase default acc)
      = if containsKey k acc then lookupKey k acc else lookupKey k default := by
  induction default generalizing acc with
  | nil =>
      cases hc : containsKey k acc
      · simp [addPhase, lookupKey, lookupKey_eq_none hc]
      · simp [addPhase]
  | cons kv rest ih =>
      show lookupKey k (addPhase rest
          (if containsKey kv.1 acc then acc else acc ++ [kv])) = _
      cases hc : containsKey kv.1 acc
      · rw [if_neg Bool.false_ne_true]
        rw [ih, containsKey_append]
        cases hk : kv.1 == k
        · have hck : containsKey k [kv] = false := by simp [containsKey, hk]
          rw [hck, Bool.or_false]
          cases hca : containsKey k acc
          · rw [if_neg Bool.false_ne_true, if_neg Bool.false_ne_true]
            simp [lookupKey, hk]
          · rw [if_pos rfl, if_pos rfl]
            exact lookupKey_append_left [kv] hca
        · have hkk : kv.1 = k := eq_of_beq hk
          rw [hkk] at hc
          have hck : containsKey k [kv] = true := by simp [containsKey, hk]
          rw [hck, Bool.or_true, if_pos rfl,
            if_neg (by rw [hc]; exact Bool.false_ne_true)]
          rw [lookupKey_append_right [kv] hc]
          simp [lookupKey, hk]
      · rw [if_pos rfl, ih]
        cases hk : kv.1 == k
        · simp [lookupKey, hk]
        · have hkk : kv.1 = k := eq_of_beq hk
          rw [hkk] at hc
          rw [if_pos hc, if_pos hc]

lemma containsKey_filterKeys {α : Type} (default data : Dict α) (k : String) :
    containsKey k (data.filter (fun kv => containsKey kv.1 default))
      = (containsKey k data && containsKey k default) := by
  induction data with
  | nil => simp [containsKey]
  | cons x xs ih =>
      cases hk : x.1 == k
      · cases hp : containsKey x.1 default <;>
          simp [List.filter_cons, hp, containsKey, hk, ih]
      · have hxk : x.1 = k := eq_of_beq hk
        cases hp : containsKey x.1 default <;>
          rw [hxk] at hp <;>
          simp [List.filter_cons, hxk, hp, containsKey, hk, ih]

lemma lookupKey_filterKeys {α : Type} (default data : Dict α) (k : String) :
    lookupKey k (data.filter (fun kv => containsKey kv.1 default))
      = if containsKey k default then lookupKey k data else none := by
  induction data with
  | nil => cases hd : containsKey k default <;> simp [lookupKey]
  | cons x xs ih =>
      cases hk : x.1 == k
      · cases hp : containsKey x.1 default <;>
          simp [List.filter_cons, hp, lookupKey, hk, ih]
      · have hxk : x.1 = k := eq_of_beq hk
        cases hp : containsKey x.1 default <;>
          rw [hxk] at hp <;>
          simp [List.filter_cons, hxk, hp, lookupKey, hk, ih]

/-- Top-level key presence after sanitization: a key is present in the result
exactly when it is present in the default dictionary. -/
lemma sanitize_contains {α : Type} (default data : Dict α) (k : String) :
    containsKey k (sanitize default data) = containsKey k default := by
  unfold sanitize
  rw [containsKey_addPhase, removePhase_eq, containsKey_filterKeys]
  cases containsKey k data <;> cases containsKey k default <;> simp

/-- Top-level value after sanitization: a key shared by both dictionaries
keeps the value from the data verbatim (no recursion into nested mappings);
any other key gets the value from the default dictionary (a missing key
yields `none` on both sides). -/
lemma sanitize_lookup {α : Type} (default data : Dict α) (k : String) :
    lookupKey k (sanitize default data)
      = if containsKey k data && containsKey k default then lookupKey k data
        else lookupKey k default := by
  unfold sanitize
  rw [lookupKey_addPhase, removePhase_eq, containsKey_filterKeys,
    lookupKey_filterKeys]
  cases hd : containsKey k data <;> cases hdf : containsKey k default <;> simp

/-- Every entry of the sanitized dictionary has a key occurring in the
default dictionary. -/
lemma sanitize_mem_key {α : Type} {default data : Dict α}
    {kv : String × α} (h : kv ∈ sanitize default data) :
    containsKey kv.1 default = true := by
  unfold sanitize at h
  rcases mem_addPhase h with h | h
  · rw [removePhase_eq] at h
    exact (List.mem_filter.mp h).2
  · exact containsKey_of_mem h

/-- C8: Sanitization is idempotent: for all trees and default schemas,
sanitizing a second time against the same default schema produces exactly
the result of sanitizing once. -/
theorem sanitize_idempotent (default data : Dict Value) :
    sanitize default (sanitize default data) = sanitize default data := by
  have h1 : removePhase default (sanitize default data)
      = sanitize default data := by
    rw [removePhase_eq]
    exact filter_all_true _ _ (fun kv hkv => sanitize_mem_key hkv)
  have h2 : ∀ kv ∈ default, containsKey kv.1 (sanitize default data) = true := by
    intro kv hkv
    rw [sanitize_contains]
    exact containsKey_of_mem hkv
  show addPhase default (removePhase default (sanitize default data))
      = sanitize default data
  rw [h1]
  exact addPhase_eq_self h2

/-- C1 counterexample: the sanitizer does not recurse into nested mappings.
With default schema a mapping at key a holding x, and data a mapping at key a
holding y, both values at the shared key a are mappings, yet sanitization
leaves the data unchanged: the nested key path a.y, absent from the default,
remains in the result, and the nested key path a.x, present in the default,
is absent from the result — contradicting the claimed level-by-level
reconciliation. -/
theorem sanitize_no_recursion_cex :
    sanitize [("a", Value.vDict [("x", Value.vInt 1)])]
        [("a", Value.vDict [("y", Value.vInt 2)])]
      = [("a", Value.vDict [("y", Value.vInt 2)])]
    ∧ lookupKey "a" ([("a", Value.vDict [("y", Value.vInt 2)])] : Dict Value)
      = some (Value.vDict [("y", Value.vInt 2)])
    ∧ lookupKey "a" ([("a", Value.vDict [("x", Value.vInt 1)])] : Dict Value)
      = some (Value.vDict [("x", Value.vInt 1)])
    ∧ lookupPath (Value.vDict (sanitize [("a", Value.vDict [("x", Value.vInt 1)])]
        [("a", Value.vDict [("y", Value.vInt 2)])])) ["a", "y"]
      = some (Value.vInt 2)
    ∧ lookupPath (Value.vDict [("a", Value.vDict [("x", Value.vInt 1)])])
        ["a", "y"] = none
    ∧ lookupPath (Value.vDict (sanitize [("a", Value.vDict [("x", Value.vInt 1)])]
        [("a", Value.vDict [("y", Value.vInt 2)])])) ["a", "x"]
      = none :=
  ⟨rfl, rfl, rfl, rfl, rfl, rfl⟩

/-- C1 (amended): sanitization reconciles key presence at the top level
only.  A key is present after sanitizing exactly when it is present in the
default schema; a key shared by data and default keeps the data value
verbatim — even when both values are nested mappings, no recursion into
them takes place — and a key present only in the default is added with the
default value. -/
theorem sanitize_top_level_only (default data : Dict Value) (k : String) :
    containsKey k (sanitize default data) = containsKey k default
    ∧ lookupKey k (sanitize default data)
      = (if containsKey k data && containsKey k default then lookupKey k data
         else lookupKey k default) :=
  ⟨sanitize_contains default data k, sanitize_lookup default data k⟩

/-- C9: for the default schema with theme light and level 1, and stored data
with theme dark and an obsolete flag, sanitization yields exactly the
dictionary with theme dark and level 1: the key absent from the defaults is
removed, the missing key is added with its default value, and the user-set
value of the shared key is kept. -/
theorem sanitize_scenario_theme_level :
    sanitize [("theme", Value.vStr "light"), ("level", Value.vInt 1)]
      [("theme", Value.vStr "dark"), ("obsolete", Value.vBool true)]
      = [("theme", Value.vStr "dark"), ("level", Value.vInt 1)] := rfl

/-
Object-identity model for claim C2.  Python assignment copies references, not
objects.  To express sharing we give dictionaries an explicit heap: a value is
a scalar or a reference (address) to a heap-allocated dictionary, and the heap
is a list of dictionaries indexed by address.
-/

/-- A Python runtime value for the identity model: scalars are immutable and
carried inline; every dictionary lives on the heap behind an address. -/
inductive PVal where
  | pNull : PVal
  | pBool : Bool → PVal
  | pInt : Int → PVal
  | pStr : String → PVal
  | ref : Nat → PVal

/-- A heap-allocated dictionary. -/
abbrev PyDict : Type := Dict PVal

/-- The relevant attributes of a SettingsManager object: the heap of
dictionary objects, the address of the default-settings dictionary
(self._default_settings) and the address of the settings data
(self.data, or the name-mangled data attribute in the base class). -/
structure SMState where
  heap : List PyDict
  defaultAddr : Nat
  dataAddr : Nat

/-- SettingsManager.load_from_default, line 882: `self.data =
self._default_settings` assigns the default-settings dictionary object
itself — the data attribute now refers to the same heap object.
SettingsManagerBase.load_from_default (line 400) behaves identically for
dictionary defaults, since _to_dict (lines 214 to 222) returns its argument
unchanged when it is a dictionary. -/
def load_from_default (s : SMState) : SMState :=
  { s with dataAddr := s.defaultAddr }

/-- An in-place mutation of the default-settings dictionary performed by the
caller after construction: `default_settings[k] = v`. -/
def setDefaultKey (s : SMState) (k : String) (v : PVal) : SMState :=
  let d := setKey k v (s.heap.getD s.defaultAddr [])
  { s with heap := s.heap.set s.defaultAddr d }

/-- The stored settings data as the caller observes it: the heap object the
data attribute refers to. -/
def observeData (s : SMState) : PyDict :=
  s.heap.getD s.dataAddr []

/-- The default-settings dictionary as the caller observes it. -/
def observeDefault (s : SMState) : PyDict :=
  s.heap.getD s.defaultAddr []

/-- C2 counterexample: first-run seeding does not deep-copy.  Start from a
heap holding one dictionary (the default schema, x mapped to 1) at address 0;
after load_from_default the data attribute refers to the same address, and a
later in-place mutation of the default schema (setting x to 2) changes the
stored settings data from x mapped to 1 to x mapped to 2. -/
theorem default_mutation_leaks_cex :
    observeData (load_from_default ⟨[[("x", PVal.pInt 1)]], 0, 1⟩)
      = [("x", PVal.pInt 1)]
    ∧ observeData (setDefaultKey
        (load_from_default ⟨[[("x", PVal.pInt 1)]], 0, 1⟩) "x" (PVal.pInt 2))
      = [("x", PVal.pInt 2)] :=
  ⟨rfl, rfl⟩

/-- C2 (amended): neither seeding nor sanitization copies.  First-run
seeding makes the settings data refer to the very default-settings object,
so after seeding the observed data always coincides with the observed
default schema, whatever mutation is applied to the default; and when
sanitization adds a missing key, the inserted value is the default's value
itself (for a nested dictionary, the same reference), not a deep copy. -/
theorem seeding_and_add_share_references :
    (∀ (s : SMState) (k : String) (v : PVal),
      (load_from_default s).dataAddr = s.defaultAddr
      ∧ observeData (setDefaultKey (load_from_default s) k v)
          = observeDefault (setDefaultKey (load_from_default s) k v))
    ∧ (∀ (default data : PyDict) (k : String),
        containsKey k data = false →
        lookupKey k (sanitize default data) = lookupKey k default) := by
  constructor
  · intro s k v
    exact ⟨rfl, rfl⟩
  · intro default data k h
    rw [sanitize_lookup, h]
    simp

/-- Witness for the C2 amended theorem at concrete inputs: after seeding
from a one-entry default schema the data address is the default address, and
sanitizing empty data against a default holding a reference to address 7 at
key y inserts that same reference. -/
theorem seeding_and_add_share_references_witness :
    (load_from_default ⟨[[("x", PVal.pInt 1)]], 0, 1⟩).dataAddr = 0
    ∧ lookupKey "y" (sanitize [("y", PVal.ref 7)] ([] : PyDict))
        = some (PVal.ref 7) := by
  refine ⟨(seeding_and_add_share_references.1
    ⟨[[("x", PVal.pInt 1)]], 0, 1⟩ "x" (PVal.pInt 2)).1, ?_⟩
  rw [seeding_and_add_share_references.2 [("y", PVal.ref 7)] [] "y" rfl]
  rfl

/-
Model for claim C3 (save_on_change through the mapping interface).
SettingsManagerAsDict stores its settings in the name-mangled data attribute;
the _data property getter (lines 189 to 197) returns that dictionary object
itself via _to_dict, and the _data property setter (lines 199 to 212)
reassigns the attribute and calls save when _save_on_change is set.  In
Python, the statement `self._data[key] = value` first evaluates the property
GETTER and then mutates the returned dictionary in place; the property setter
is not invoked.  We track the number of completed save calls in saveCount.
-/

/-- The state of a SettingsManagerAsDict object: its settings dictionary,
the _save_on_change flag, and how many times save has run. -/
structure DictSM where
  data : Dict Value
  saveOnChange : Bool
  saveCount : Nat

/-- The _data property setter (lines 199 to 212): reassigns the whole data
attribute and saves when _save_on_change is true.  Only a plain attribute
assignment `self._data = value` runs this. -/
def dataSetter (s : DictSM) (v : Dict Value) : DictSM :=
  if s.saveOnChange then { s with data := v, saveCount := s.saveCount + 1 }
  else { s with data := v }

/-- SettingsManagerAsDict.__setitem__ (lines 475 to 476):
`self._data[key] = value`.  The property getter returns the stored
dictionary object, which is then mutated in place; the property setter (and
hence save) never runs.  SettingsManager.__setitem__ (lines 898 to 899)
behaves identically through the data property. -/
def setitem (s : DictSM) (k : String) (v : Value) : DictSM :=
  { s with data := setKey k v s.data }

/-- SettingsManagerAsDict.__delitem__ (lines 478 to 479):
`del self._data[key]` — same getter-then-mutate shape, for a key that is
present.  The property setter (and hence save) never runs. -/
def delitem (s : DictSM) (k : String) : DictSM :=
  { s with data := delKey k s.data }

/-- C3 evaluated at the failing input: with save_on_change enabled and no
save performed yet, assigning a key through the mapping interface updates the
stored dictionary but performs no save (saveCount stays 0), and so does
deleting a key; by contrast a whole-attribute reassignment through the
property setter does save.  The claim that every mutation through the public
mapping interface triggers an immediate save is false of the code, while the
code documents save_on_change as saving the settings when they are changed. -/
theorem setitem_does_not_save_eval :
    (setitem ⟨[("theme", Value.vStr "light")], true, 0⟩ "theme"
        (Value.vStr "dark")).data = [("theme", Value.vStr "dark")]
    ∧ (setitem ⟨[("theme", Value.vStr "light")], true, 0⟩ "theme"
        (Value.vStr "dark")).saveCount = 0
    ∧ (delitem ⟨[("a", Value.vInt 1)], true, 0⟩ "a").data = []
    ∧ (delitem ⟨[("a", Value.vInt 1)], true, 0⟩ "a").saveCount = 0
    ∧ (dataSetter ⟨[("a", Value.vInt 1)], true, 0⟩ []).saveCount = 1 :=
  ⟨rfl, rfl, rfl, rfl, rfl⟩

/-
Format inference, claim C4.  SettingsManagerBase._get_format (lines 359 to
386) compares Path(read_path).suffix with Path(write_path).suffix and maps
the extension through a dictionary; SettingsManager._get_format (lines 740
to 761) only applies endswith tests to the read path and never looks at the
write path.  Errors across both classes are collected in one error type.
-/

/-- The error outcomes of the module, covering the exception classes of the
base-class hierarchy (InvalidPathError, UnsupportedFormatError,
MissingDependencyError, IniFormatError, SaveError, LoadError with their
wrapped cause), the plain ValueError used by SettingsManager, the raw
IOError of the runtime, and the AttributeError raised when an attribute that
was never assigned is read. -/
inductive PyErr where
  | invalidPathError : PyErr
  | unsupportedFormatError : PyErr
  | missingDependencyError : PyErr
  | iniFormatError : PyErr
  | saveError : String → PyErr
  | loadError : String → PyErr
  | valueError : PyErr
  | ioError : String → PyErr
  | attributeError : PyErr
deriving DecidableEq

/-- The final path component (after the last slash), as a character list. -/
def lastComponent (p : String) : List Char :=
  (p.toList.splitOn '/').getLastD []

/-- Model of pathlib Path(p).suffix: the substring of the final component
from its last dot, except when that dot is the leading or the trailing
character of the component, in which case the suffix is empty. -/
def pathSuffix (p : String) : List Char :=
  let name := lastComponent p
  if name.contains '.' then
    let after := (name.reverse.takeWhile (fun c => !(c == '.'))).reverse
    if after.length + 1 == name.length then []
    else if after.length == 0 then []
    else '.' :: after
  else []

/-- The extension_to_format dictionary of lines 374 to 380. -/
def extensionToFormat (ext : List Char) : Option String :=
  if ext == ".json".toList then some "json"
  else if ext == ".yaml".toList then some "yaml"
  else if ext == ".yml".toList then some "yaml"
  else if ext == ".toml".toList then some "toml"
  else if ext == ".ini".toList then some "ini"
  else none

/-- SettingsManagerBase._get_format (lines 359 to 386): raise
UnsupportedFormatError when the two suffixes differ, otherwise map the read
path suffix through extension_to_format, raising UnsupportedFormatError for
an unknown extension. -/
def base_get_format (readPath writePath : String) : Except PyErr String :=
  if !(pathSuffix readPath == pathSuffix writePath) then
    .error .unsupportedFormatError
  else
    match extensionToFormat (pathSuffix readPath) with
    | some f => .ok f
    | none => .error .unsupportedFormatError

/-- Python str.endswith on the embedded strings. -/
def strEndsWith (s suffix : String) : Bool :=
  suffix.toList.isSuffixOf s.toList

/-- SettingsManager._get_format (lines 740 to 761): endswith tests on the
read path only; the write path is never consulted. -/
def sm_get_format (readPath : String) : Except PyErr String :=
  if strEndsWith readPath ".json" then .ok "json"
  else if strEndsWith readPath ".yaml" || strEndsWith readPath ".yml" then .ok "yaml"
  else if strEndsWith readPath ".toml" then .ok "toml"
  else if strEndsWith readPath ".ini" then .ok "ini"
  else .error .valueError

/-- The format-resolution slice of SettingsManager.__init__ (lines 675 to
686): store both paths, take the explicit format if given, otherwise infer
it with _get_format from the read path, then reject formats outside
SUPPORTED_FORMATS with a ValueError.  The write path is stored but plays no
part in inference. -/
def sm_init_format (readPath writePath : String) (format : Option String) :
    Except PyErr String :=
  let inferred : Except PyErr String :=
    match format with
    | some f => .ok f
    | none => sm_get_format readPath
  match inferred with
  | .error e => .error e
  | .ok f => if SUPPORTED_FORMATS.contains f then .ok f else .error .valueError

/-- C4 counterexample: constructing a SettingsManager with read path a.json
and write path a.yaml — two paths whose extensions differ — does not fail:
inference ignores the write path and succeeds with json.  (The two suffixes
differ, so the claimed configuration error should have been raised.) -/
theorem format_mismatch_not_detected_cex :
    sm_init_format "a.json" "a.yaml" none = .ok "json"
    ∧ pathSuffix "a.json" ≠ pathSuffix "a.yaml" :=
  ⟨rfl, by decide⟩

/-- C4 (amended): when no explicit format is given, the format is inferred
from the file extension (.json to json, .yaml and .yml to yaml, .toml to
toml, .ini to ini).  In SettingsManagerBase, read and write paths whose
suffixes differ make inference fail with a configuration error; in
SettingsManager, inference uses the read path alone — the outcome is
independent of the write path — so mismatched extensions do not fail there. -/
theorem format_inference_amended :
    (∀ readPath writePath : String,
      pathSuffix readPath ≠ pathSuffix writePath →
      base_get_format readPath writePath = .error .unsupportedFormatError)
    ∧ base_get_format "a.json" "a.json" = .ok "json"
    ∧ base_get_format "a.yaml" "a.yaml" = .ok "yaml"
    ∧ base_get_format "a.yml" "b.yml" = .ok "yaml"
    ∧ base_get_format "a.toml" "a.toml" = .ok "toml"
    ∧ base_get_format "a.ini" "a.ini" = .ok "ini"
    ∧ (∀ readPath writePath writePath2 : String, ∀ format : Option String,
        sm_init_format readPath writePath format
          = sm_init_format readPath writePath2 format)
    ∧ sm_init_format "a.json" "a.yaml" none = .ok "json" := by
  refine ⟨?_, rfl, rfl, rfl, rfl, rfl, ?_, rfl⟩
  · intro readPath writePath h
    unfold base_get_format
    rw [if_pos ?_]
    cases hb : pathSuffix readPath == pathSuffix writePath
    · rfl
    · exact absurd (eq_of_beq hb) h
  · intro readPath writePath writePath2 format
    rfl

/-- Witness for the C4 amended theorem: the base class rejects the pair
a.json and a.yaml with the configuration error, and the write path is
irrelevant to SettingsManager inference at a concrete triple. -/
theorem format_inference_amended_witness :
    base_get_format "a.json" "a.yaml" = .error .unsupportedFormatError
    ∧ sm_init_format "a.json" "a.yaml" none
        = sm_init_format "a.json" "b.toml" none :=
  ⟨format_inference_amended.1 "a.json" "a.yaml" (by decide),
    (format_inference_amended.2.2.2.2.2.2.1 "a.json" "a.yaml" "b.toml" none)⟩

/-
Construction-time path validation, claim C5.  SettingsManagerBase.__init__
(lines 80 to 101): two guards raise InvalidPathError, then the attributes
_read_path and _write_path are assigned by `if path: ... elif read_path and
write_path: ...`.  When only one of read_path and write_path is supplied,
neither guard fires and neither assignment branch runs, so the attributes
stay unset and the first later access to self._read_path raises an
AttributeError instead.  SettingsManager.__init__ (lines 641 to 646) has the
same two guards with ValueError.
-/

/-- Python truthiness of an optional string argument: None and the empty
string are falsy. -/
def truthy : Option String → Bool
  | none => false
  | some s => !(s == "")

/-- Lines 80 to 101 of SettingsManagerBase.__init__: the two InvalidPathError
guards followed by the path-attribute assignment.  The result is the pair of
assigned paths, or none when the guards pass but no assignment branch runs
(only one of read_path and write_path supplied). -/
def base_init_paths (path readPath writePath : Option String) :
    Except PyErr (Option (String × String)) :=
  if !(truthy path) && !(truthy readPath || truthy writePath) then
    .error .invalidPathError
  else if truthy path && (truthy readPath || truthy writePath) then
    .error .invalidPathError
  else if truthy path then
    .ok (some (path.getD "", path.getD ""))
  else if truthy readPath && truthy writePath then
    .ok (some (readPath.getD "", writePath.getD ""))
  else
    .ok none

/-- SettingsManagerBase.__init__ continued through format resolution and the
first use of the read path (lines 117 to 159): an explicit format is taken
as is, otherwise _get_format runs (reading self._read_path — an
AttributeError when the attribute was never assigned); the resolved format
must lie in SUPPORTED_FORMATS; finally Path(self._read_path).exists() is
evaluated, again an AttributeError when unassigned.  The optional yaml and
toml codec availability checks are environment dependent and outside the
paths claim, so both codecs are taken as available. -/
def base_init_format (path readPath writePath : Option String)
    (format : Option String) : Except PyErr String :=
  match base_init_paths path readPath writePath with
  | .error e => .error e
  | .ok assigned =>
    let resolved : Except PyErr String :=
      match format with
      | some f => .ok f
      | none =>
        match assigned with
        | none => .error .attributeError
        | some (r, w) => base_get_format r w
    match resolved with
    | .error e => .error e
    | .ok f =>
      if !(SUPPORTED_FORMATS.contains f) then .error .unsupportedFormatError
      else
        match assigned with
        | none => .error .attributeError
        | some _ => .ok f

/-- Whether an error is one of the configuration errors of the
specification: invalid path arguments, unsupported or undetectable format,
missing optional codec (InvalidPathError, UnsupportedFormatError,
MissingDependencyError in the base class, ValueError in SettingsManager). -/
def isConfigError : PyErr → Bool
  | .invalidPathError => true
  | .unsupportedFormatError => true
  | .missingDependencyError => true
  | .valueError => true
  | _ => false

/-- C5 counterexample: constructing with only read_path supplied (no path,
no write_path) passes both InvalidPathError guards — the validation accepts
the combination and assigns no path attributes — and construction then fails
with an AttributeError, which is not a configuration error. -/
theorem partial_path_no_config_error_cex :
    base_init_paths none (some "a.json") none = .ok none
    ∧ base_init_format none (some "a.json") none none = .error .attributeError
    ∧ base_init_format none (some "a.json") none (some "json")
        = .error .attributeError
    ∧ isConfigError .attributeError = false :=
  ⟨rfl, rfl, rfl, rfl⟩

/-- C5 (amended): construction raises the configuration error
InvalidPathError when no path argument at all is supplied, and when path is
supplied together with read_path or write_path; but supplying only read_path
or only write_path passes the validation (no configuration error), leaves
the path attributes unassigned, and construction instead dies later with an
AttributeError when the unset attribute is first used (when no explicit
format, or a supported explicit format, is given; an unsupported explicit
format still dies first with UnsupportedFormatError). -/
theorem path_validation_amended :
    base_init_paths none none none = .error .invalidPathError
    ∧ (∀ path readPath writePath : Option String,
        truthy path = true → (truthy readPath || truthy writePath) = true →
        base_init_paths path readPath writePath = .error .invalidPathError)
    ∧ (∀ readPath : Option String, truthy readPath = true →
        base_init_paths none readPath none = .ok none
        ∧ base_init_format none readPath none none = .error .attributeError
        ∧ ∀ f : String, SUPPORTED_FORMATS.contains f = true →
            base_init_format none readPath none (some f)
              = .error .attributeError)
    ∧ (∀ writePath : Option String, truthy writePath = true →
        base_init_paths none none writePath = .ok none
        ∧ base_init_format none none writePath none = .error .attributeError
        ∧ ∀ f : String, SUPPORTED_FORMATS.contains f = true →
            base_init_format none none writePath (some f)
              = .error .attributeError) := by
  refine ⟨rfl, ?_, ?_, ?_⟩
  · intro path readPath writePath hp hrw
    unfold base_init_paths
    rw [hp, hrw]
    rfl
  · intro readPath hr
    have hpaths : base_init_paths none readPath none = .ok none := by
      unfold base_init_paths
      rw [hr]
      rfl
    refine ⟨hpaths, ?_, fun f hf => ?_⟩
    · unfold base_init_format
      rw [hpaths]
    · have hm : f ∈ SUPPORTED_FORMATS := by simpa using hf
      unfold base_init_format
      rw [hpaths]
      simp [hm]
  · intro writePath hw
    have hpaths : base_init_paths none none writePath = .ok none := by
      unfold base_init_paths
      rw [hw]
      rfl
    refine ⟨hpaths, ?_, fun f hf => ?_⟩
    · unfold base_init_format
      rw [hpaths]
    · have hm : f ∈ SUPPORTED_FORMATS := by simpa using hf
      unfold base_init_format
      rw [hpaths]
      simp [hm]

/-- Witness for the C5 amended theorem at concrete arguments. -/
theorem path_validation_amended_witness :
    base_init_paths (some "a.json") (some "b.json") none
      = .error .invalidPathError
    ∧ base_init_paths none (some "a.json") none = .ok none
    ∧ base_init_format none none (some "out.json") (some "json")
        = .error .attributeError :=
  ⟨path_validation_amended.2.1 (some "a.json") (some "b.json") none rfl rfl,
    (path_validation_amended.2.2.1 (some "a.json") rfl).1,
    (path_validation_amended.2.2.2 (some "out.json") rfl).2.2 "json" rfl⟩

/-
Saving and loading, claims C6, C7, C10.  The encoders themselves (json dump,
yaml safe_dump, toml dump, ini ConfigParser.write) are external codecs; what
the claims concern is the control flow around them: which check runs first,
whether the destination file is opened and written, and how an IOError from
the runtime is surfaced.  The file system is abstracted by an io argument:
for a write, `some msg` means the underlying open or write raises
IOError(msg) and `none` means it succeeds; for a read, `Except.error msg`
means the open or read raises IOError(msg) and `Except.ok d` means the file
was read and decoded to the dictionary d.
-/

/-- The observable outcome of a save call: the raised error or success, and
the list of completed file writes, each recorded as the pair of the format
used and the dictionary encoded.  An empty write list means no byte reached
the destination file. -/
structure SaveOutcome where
  result : Except PyErr Unit
  writes : List (String × Dict Value)

/-- SettingsManagerBase.save (lines 224 to 250): sanitize first when
auto_sanitize is set; then run valid_ini_format on the data about to be
written — unconditionally, whatever the configured format — and raise
IniFormatError before opening the file when it fails; then open the write
path and dispatch on the format inside a try block whose except clause
wraps an IOError into SaveError (cause preserved); _write raises
UnsupportedFormatError for a format outside the four supported ones. -/
def base_save (format : String) (autoSanitize : Bool)
    (default data : Dict Value) (io : Option String) : SaveOutcome :=
  let d := if autoSanitize then sanitize default data else data
  if valid_ini_format d = false then
    { result := .error .iniFormatError, writes := [] }
  else
    match io with
    | some m => { result := .error (.saveError m), writes := [] }
    | none =>
        if SUPPORTED_FORMATS.contains format then
          { result := .ok (), writes := [(format, d)] }
        else
          { result := .error .unsupportedFormatError, writes := [] }

/-- SettingsManagerBase.load (lines 296 to 313): open the read path and
decode inside a try block whose except clause wraps an IOError into
LoadError (cause preserved); when auto_sanitize is set the decoded data is
sanitized before being stored. -/
def base_load (autoSanitize : Bool) (default : Dict Value)
    (io : Except String (Dict Value)) : Except PyErr (Dict Value) :=
  match io with
  | .error m => .error (.loadError m)
  | .ok d => .ok (if autoSanitize then sanitize default d else d)

/-- SettingsManager.save (lines 792 to 819): sanitize first when the
sanitize flag is set, then open the write path and dump — with no
valid_ini_format check and no try block, so an IOError from the runtime
propagates to the caller unwrapped. -/
def sm_save (format : String) (sanitizeFlag : Bool)
    (default data : Dict Value) (io : Option String) : SaveOutcome :=
  let d := if sanitizeFlag then sanitize default data else data
  match io with
  | some m => { result := .error (.ioError m), writes := [] }
  | none => { result := .ok (), writes := [(format, d)] }

/-- SettingsManager.load (lines 763 to 790), dispatching on the configured
format (the constructor guarantees it lies in SUPPORTED_FORMATS).  For the
json, yaml and toml branches the file is opened with no try block, so an
IOError from the runtime propagates to the caller unwrapped.  The ini
branch instead calls ConfigParser.read, which catches OSError (the IOError
alias) internally and silently skips an unreadable file: the parser then
has no sections and the data becomes the empty dictionary, with no error
surfaced.  When the sanitize flag is set the resulting data is sanitized
afterwards. -/
def sm_load (format : String) (sanitizeFlag : Bool) (default : Dict Value)
    (io : Except String (Dict Value)) : Except PyErr (Dict Value) :=
  if format == "ini" then
    let d : Dict Value :=
      match io with
      | .error _ => []
      | .ok d => d
    .ok (if sanitizeFlag then sanitize default d else d)
  else
    match io with
    | .error m => .error (.ioError m)
    | .ok d => .ok (if sanitizeFlag then sanitize default d else d)

/-- C6 counterexample: in SettingsManager, an underlying write failure is
not wrapped into a save-specific error and a read failure under the json
format is not wrapped into a load-specific error — the raw IOError reaches
the caller — while under the ini format a read failure is not surfaced at
all: ConfigParser.read swallows it and load succeeds with empty data. -/
theorem sm_io_error_unwrapped_cex :
    (sm_save "json" false [] [] (some "disk full")).result
      = .error (.ioError "disk full")
    ∧ PyErr.ioError "disk full" ≠ PyErr.saveError "disk full"
    ∧ sm_load "json" false [] (.error "permission denied")
        = .error (.ioError "permission denied")
    ∧ PyErr.ioError "permission denied" ≠ PyErr.loadError "permission denied"
    ∧ sm_load "ini" false [] (.error "permission denied") = .ok [] :=
  ⟨rfl, by decide, rfl, by decide, rfl⟩

/-- C6 (amended): SettingsManagerBase wraps an underlying I/O failure and
surfaces it — load into LoadError and save into SaveError, preserving the
original cause.  SettingsManager.save surfaces the raw IOError unwrapped,
as do the json, yaml and toml branches of SettingsManager.load; the ini
branch of SettingsManager.load swallows the failure entirely —
ConfigParser.read ignores the unreadable file and load succeeds with empty
data (sanitized when the flag is set), surfacing nothing. -/
theorem io_error_wrapping_amended :
    (∀ (format : String) (autoSanitize : Bool) (default data : Dict Value)
        (m : String),
      valid_ini_format (if autoSanitize then sanitize default data else data)
          = true →
      (base_save format autoSanitize default data (some m)).result
        = .error (.saveError m))
    ∧ (∀ (autoSanitize : Bool) (default : Dict Value) (m : String),
        base_load autoSanitize default (.error m) = .error (.loadError m))
    ∧ (∀ (format : String) (sanitizeFlag : Bool) (default data : Dict Value)
          (m : String),
        (sm_save format sanitizeFlag default data (some m)).result
          = .error (.ioError m))
    ∧ (∀ (format : String) (sanitizeFlag : Bool) (default : Dict Value)
          (m : String), format ≠ "ini" →
        sm_load format sanitizeFlag default (.error m) = .error (.ioError m))
    ∧ (∀ (sanitizeFlag : Bool) (default : Dict Value) (m : String),
        sm_load "ini" sanitizeFlag default (.error m)
          = .ok (if sanitizeFlag then sanitize default [] else [])) := by
  refine ⟨?_, fun _ _ _ => rfl, fun _ _ _ _ _ => rfl, ?_, fun _ _ _ => rfl⟩
  · intro format autoSanitize default data m h
    simp [base_save, h]
  · intro format sanitizeFlag default m h
    have hb : (format == "ini") = false := by
      cases hc : format == "ini"
      · rfl
      · exact absurd (eq_of_beq hc) h
    unfold sm_load
    rw [hb]
    rfl

/-- Witness for the C6 amended theorem: the base class wraps a concrete
disk-full failure into SaveError with the cause kept, and a json-format
read failure reaches the SettingsManager caller as the raw IOError. -/
theorem io_error_wrapping_amended_witness :
    (base_save "json" false [] [("s", Value.vDict [])]
        (some "disk full")).result = .error (.saveError "disk full")
    ∧ base_load false [] (.error "missing dir")
        = .error (.loadError "missing dir")
    ∧ sm_load "json" false [] (.error "permission denied")
        = .error (.ioError "permission denied") :=
  ⟨io_error_wrapping_amended.1 "json" false [] [("s", Value.vDict [])]
      "disk full" rfl,
    io_error_wrapping_amended.2.1 false [] "missing dir",
    io_error_wrapping_amended.2.2.2.1 "json" false [] "permission denied"
      (by decide)⟩

lemma valid_ini_format_eq_false {d : Dict Value}
    (h : ∃ kv ∈ d, kv.2.isDict = false) : valid_ini_format d = false := by
  rcases h with ⟨kv, hmem, hkv⟩
  cases hv : valid_ini_format d
  · rfl
  · have := (List.all_eq_true.mp hv) kv hmem
    rw [hkv] at this
    cases this

/-- C7: saving under the INI format a tree in which some top-level value is
not a mapping fails with the structural IniFormatError, and nothing is
written to the destination file (the check runs before the file is opened).
The tree inspected is the one about to be encoded: the stored data, after
sanitization when auto_sanitize is enabled. -/
theorem ini_save_fails_structural (autoSanitize : Bool)
    (default data : Dict Value) (io : Option String)
    (h : ∃ kv ∈ (if autoSanitize then sanitize default data else data),
        kv.2.isDict = false) :
    (base_save "ini" autoSanitize default data io).result
        = .error .iniFormatError
    ∧ (base_save "ini" autoSanitize default data io).writes = [] := by
  have hv := valid_ini_format_eq_false h
  simp [base_save, hv]

/-- Witness for C7 at a concrete input: data with a scalar at the top
level, empty defaults, no sanitization, a healthy file system. -/
theorem ini_save_fails_structural_witness :
    (base_save "ini" false [] [("x", Value.vInt 1)] none).result
        = .error .iniFormatError
    ∧ (base_save "ini" false [] [("x", Value.vInt 1)] none).writes = [] :=
  ini_save_fails_structural false [] [("x", Value.vInt 1)] none
    ⟨("x", Value.vInt 1), List.mem_singleton.mpr rfl, rfl⟩

/-- C10: SettingsManagerBase.save runs the valid_ini_format check
unconditionally, whatever the configured format: any tree whose top level
holds a non-mapping value makes save raise IniFormatError and write nothing,
also under json, yaml or toml — so no such tree can be saved through the
base class under any format. -/
theorem ini_check_applies_all_formats (format : String) (autoSanitize : Bool)
    (default data : Dict Value) (io : Option String)
    (h : ∃ kv ∈ (if autoSanitize then sanitize default data else data),
        kv.2.isDict = false) :
    (base_save format autoSanitize default data io).result
        = .error .iniFormatError
    ∧ (base_save format autoSanitize default data io).writes = [] := by
  have hv := valid_ini_format_eq_false h
  simp [base_save, hv]

/-- Witness for C10 at a concrete input: the json format refuses to save a
top-level scalar through the base class. -/
theorem ini_check_applies_all_formats_witness :
    (base_save "json" false [] [("x", Value.vInt 1)] none).result
        = .error .iniFormatError
    ∧ (base_save "json" false [] [("x", Value.vInt 1)] none).writes = [] :=
  ini_check_applies_all_formats "json" false [] [("x", Value.vInt 1)] none
    ⟨("x", Value.vInt 1), List.mem_singleton.mpr rfl, rfl⟩

end SettingsManager
